import Mathlib

/-!
Shallow embedding of the discovery-and-validation engine of the
ai-import-guard repository: the bounded TTL cache (CacheManager), the
per-ecosystem import validators (JavaScript, Python, Rust engines), the
similarity suggester, the relevance scorer (semantic-search) and the
JavaScript module introspector.  External effects (file system, child
processes, Node resolution, dynamic import) are passed in as explicit
oracle parameters; everything else is translated directly from the
TypeScript source.  All functions are total, which models the source's
guarantee that these code paths never throw to the caller.

Recursions that consume an input string use an explicit fuel parameter,
always instantiated with the length of the input, so that every
definition is structurally recursive and computable by the kernel; the
out-of-fuel branches are unreachable for those instantiations.
-/

set_option maxRecDepth 10000

/-- JavaScript regular-expression whitespace class membership: the
characters matched by the host `\s` class (ASCII whitespace plus the
Unicode space separators, NBSP, BOM and line/paragraph separators). -/
def isJsWs (c : Char) : Bool :=
  c.toNat ∈ ([0x9, 0xa, 0xb, 0xc, 0xd, 0x20, 0xa0, 0x1680,
              0x2000, 0x2001, 0x2002, 0x2003, 0x2004, 0x2005, 0x2006,
              0x2007, 0x2008, 0x2009, 0x200a, 0x2028, 0x2029, 0x202f,
              0x205f, 0x3000, 0xfeff] : List Nat)

/-- `needle` occurs as a contiguous substring of the list: the semantics of
the host `String.prototype.includes` (an empty needle is always found). -/
def isSubstrL (needle : List Char) : List Char → Bool
  | [] => needle.isEmpty
  | c :: rest => needle.isPrefixOf (c :: rest) || isSubstrL needle rest

/-- `hay.includes(needle)` of the source. -/
def jsIncludes (hay needle : String) : Bool :=
  isSubstrL needle.toList hay.toList

/-- The host `toLowerCase` restricted to its ASCII action (the identifiers,
keywords and descriptions the engines compare are ASCII): map the letters
`A`-`Z` to `a`-`z` character by character. -/
def jsToLower (s : String) : String :=
  String.mk (s.toList.map Char.toLower)

/-- `String.prototype.split(/\s+/)` as used by `calculateSemanticScore`:
maximal whitespace runs separate fields, and a leading or trailing run
contributes an empty field, so the result is never the empty list.  The
fuel is instantiated with the input length, which makes the last branch
unreachable. -/
def splitWsAux (cur : List Char) : List Char → Nat → List (List Char)
  | [], _ => [cur.reverse]
  | c :: rest, fuel + 1 =>
    if isJsWs c then cur.reverse :: splitWsAux [] (rest.dropWhile isJsWs) fuel
    else splitWsAux (c :: cur) rest fuel
  | _ :: _, 0 => [cur.reverse]

def jsSplitWs (s : String) : List String :=
  (splitWsAux [] s.toList s.toList.length).map fun l => String.mk l

/-- `str.replace(pat, '')` for a plain (non-regex) pattern: removes the first
occurrence of `pat`, returns the input unchanged when `pat` never occurs. -/
def replaceFirstL (pat : List Char) : List Char → List Char
  | [] => []
  | c :: rest =>
    if pat.isPrefixOf (c :: rest) then (c :: rest).drop pat.length
    else c :: replaceFirstL pat rest

def jsReplaceFirst (s pat : String) : String :=
  String.mk (replaceFirstL pat.toList s.toList)

/-! ### The Python import-statement extractor

`PythonDiscoveryEngine.extractPackageNameFromImport` applies the two anchored
patterns `/^from\s+([A-Za-z_]\w*(?:\.[A-Za-z_]\w*)*)\s+import/` and
`/^import\s+([A-Za-z_]\w*(?:\.[A-Za-z_]\w*)*)/` in order and, on a match,
returns the first dot-segment of the captured dotted name.  Because the
identifier characters, the dot and the whitespace class are pairwise
disjoint, the host regex backtracking is equivalent to the maximal-munch
parse implemented here. -/

def isIdentStart (c : Char) : Bool := c.isAlpha || c = '_'

def isIdentChar (c : Char) : Bool := c.isAlphanum || c = '_'

/-- Parse `[A-Za-z_][A-Za-z0-9_]*` greedily; `none` when the next character
cannot start an identifier. -/
def parseIdent : List Char → Option (List Char × List Char)
  | [] => none
  | c :: cs =>
    if isIdentStart c then some (c :: cs.takeWhile isIdentChar, cs.dropWhile isIdentChar)
    else none

/-- Parse `(?:\.[A-Za-z_]\w*)*` greedily, returning the consumed characters
and the rest of the input.  Fuel is the input length (each step consumes at
least two characters). -/
def parseDotGroups : Nat → List Char → (List Char × List Char)
  | _, [] => ([], [])
  | 0, cs => ([], cs)
  | fuel + 1, c :: rest =>
    if c = '.' then
      match parseIdent rest with
      | some (idn, r3) =>
        let (m, r4) := parseDotGroups fuel r3
        ('.' :: idn ++ m, r4)
      | none => ([], c :: rest)
    else ([], c :: rest)

/-- Parse a whole dotted identifier `[A-Za-z_]\w*(?:\.[A-Za-z_]\w*)*`. -/
def parseDotted (cs : List Char) : Option (List Char × List Char) :=
  match parseIdent cs with
  | none => none
  | some (id1, rest) =>
    let (m, rest2) := parseDotGroups rest.length rest
    some (id1 ++ m, rest2)

/-- Parse `\s+` (at least one whitespace character, greedily). -/
def parseWs1 : List Char → Option (List Char)
  | [] => none
  | c :: cs => if isJsWs c then some (cs.dropWhile isJsWs) else none

/-- Match `/^from\s+(dotted)\s+import/` against the statement, returning the
captured dotted name. -/
def pyMatchFrom (cs : List Char) : Option (List Char) :=
  if ("from".toList).isPrefixOf cs then
    match parseWs1 (cs.drop 4) with
    | none => none
    | some r1 =>
      match parseDotted r1 with
      | none => none
      | some (name, r2) =>
        match parseWs1 r2 with
        | none => none
        | some r3 => if ("import".toList).isPrefixOf r3 then some name else none
  else none

/-- Match `/^import\s+(dotted)/` against the statement. -/
def pyMatchImport (cs : List Char) : Option (List Char) :=
  if ("import".toList).isPrefixOf cs then
    match parseWs1 (cs.drop 6) with
    | none => none
    | some r1 =>
      match parseDotted r1 with
      | none => none
      | some (name, _) => some name
  else none

/-- `match[1].split('.')[0]`: the root segment of the captured dotted name. -/
def rootOfDotted (name : List Char) : String :=
  String.mk (name.takeWhile (· ≠ '.'))

/-- `PythonDiscoveryEngine.extractPackageNameFromImport`: the two patterns are
tried in order; the first match wins; no match yields `none`. -/
def pyExtract (stmt : String) : Option String :=
  let cs := stmt.toList
  match pyMatchFrom cs with
  | some name => some (rootOfDotted name)
  | none =>
    match pyMatchImport cs with
    | some name => some (rootOfDotted name)
    | none => none

example : pyExtract "import os" = some "os" := by decide
example : pyExtract "from os.path import join" = some "os" := by decide
example : pyExtract "import numpy.linalg as la" = some "numpy" := by decide
example : pyExtract "banana" = none := by decide
example : pyExtract "import " = none := by decide
example : jsSplitWs "http client" = ["http", "client"] := by decide
example : jsSplitWs "" = [""] := by decide
example : jsSplitWs " a " = ["", "a", ""] := by decide
example : jsReplaceFirst "node:fs" "node:" = "fs" := by decide

/-! ### Static registries

The standard-library sets and keyword tables are process-wide constants in
the source.  JavaScript `Set` literals are modelled as lists keeping the
first-insertion order with duplicates removed (that is the set's iteration
order); plain array literals keep duplicates exactly as written. -/

structure Category where
  name : String
  keywords : List String
  weight : Nat
deriving DecidableEq
/-- Node.js built-in module names, from NODE_BUILTIN_MODULES in src/cache-adjacent builtin-modules source (JS Set: duplicates removed, first-insertion order kept). -/
def NODE_BUILTIN_MODULES : List String := [
  "assert", "assert/strict", "async_hooks", "buffer", "child_process", "cluster",
  "console", "constants", "crypto", "dgram", "diagnostics_channel", "dns",
  "dns/promises", "domain", "events", "fs", "fs/promises", "http",
  "http2", "https", "inspector", "module", "net", "os",
  "path", "path/posix", "path/win32", "perf_hooks", "process", "punycode",
  "querystring", "readline", "readline/promises", "repl", "stream", "stream/promises",
  "stream/web", "string_decoder", "sys", "timers", "timers/promises", "tls",
  "trace_events", "tty", "url", "util", "util/types", "v8",
  "vm", "wasi", "worker_threads", "zlib", "stream/consumers", "node:test",
  "test", "node:assert", "node:assert/strict", "node:async_hooks", "node:buffer", "node:child_process",
  "node:cluster", "node:console", "node:constants", "node:crypto", "node:dgram", "node:diagnostics_channel",
  "node:dns", "node:dns/promises", "node:domain", "node:events", "node:fs", "node:fs/promises",
  "node:http", "node:http2", "node:https", "node:inspector", "node:module", "node:net",
  "node:os", "node:path", "node:path/posix", "node:path/win32", "node:perf_hooks", "node:process",
  "node:punycode", "node:querystring", "node:readline", "node:readline/promises", "node:repl", "node:stream",
  "node:stream/promises", "node:stream/web", "node:string_decoder", "node:sys", "node:timers", "node:timers/promises",
  "node:tls", "node:trace_events", "node:tty", "node:url", "node:util", "node:util/types",
  "node:v8", "node:vm", "node:wasi", "node:worker_threads", "node:zlib", "node:stream/consumers"]

/-- Python standard library module names (PYTHON_STDLIB_MODULES Set in engines/python.ts; duplicates removed, insertion order kept). -/
def PYTHON_STDLIB_MODULES : List String := [
  "os", "sys", "json", "datetime", "time", "math",
  "random", "collections", "itertools", "functools", "operator", "copy",
  "pickle", "csv", "xml", "sqlite3", "threading", "multiprocessing",
  "asyncio", "concurrent", "urllib", "http", "email", "html",
  "pathlib", "shutil", "glob", "tempfile", "zipfile", "tarfile",
  "gzip", "bz2", "lzma", "subprocess", "io", "logging",
  "warnings", "traceback", "unittest", "doctest", "pdb", "profile",
  "pstats", "timeit", "argparse", "configparser", "getopt", "optparse",
  "socket", "ssl", "hashlib", "hmac", "secrets", "base64",
  "binascii", "struct", "codecs", "unicodedata", "stringprep", "readline",
  "rlcompleter", "cmd", "shlex", "queue", "sched", "mutex",
  "contextvars", "decimal", "fractions", "statistics", "array", "weakref",
  "gc", "inspect", "site", "imp", "importlib", "pkgutil",
  "modulefinder", "runpy", "ast", "keyword", "token", "tokenize",
  "parser", "symbol", "dis", "pickletools", "py_compile", "compileall",
  "marshal", "types", "enum", "dataclasses", "typing", "typing_extensions",
  "abc", "numbers", "zlib"]

/-- Rust standard library module names (RUST_STDLIB_MODULES Set in the rust engine). -/
def RUST_STDLIB_MODULES : List String := [
  "std", "core", "alloc", "proc_macro", "test", "std::collections",
  "std::fs", "std::io", "std::net", "std::os", "std::path", "std::process",
  "std::sync", "std::thread", "std::time", "std::env", "std::fmt", "std::str",
  "std::string", "std::vec", "std::hash", "std::convert", "std::default", "std::iter",
  "std::mem", "std::ptr", "std::slice", "std::borrow", "std::clone", "std::cmp",
  "std::marker", "std::ops", "std::option", "std::result", "std::any", "std::ascii",
  "std::char", "std::f32", "std::f64", "std::i8", "std::i16", "std::i32",
  "std::i64", "std::i128", "std::isize", "std::u8", "std::u16", "std::u32",
  "std::u64", "std::u128", "std::usize", "std::primitive"]

/-- The per-module description table inside getBuiltinModuleInfo (name, description, category). -/
def builtinModuleDescriptions : List (String × String × String) := [
  ("assert", "Assertion testing utilities", "testing"),
  ("async_hooks", "Async resource lifecycle tracking", "utility"),
  ("buffer", "Binary data handling", "utility"),
  ("child_process", "Child process spawning", "system"),
  ("cluster", "Child process clustering", "system"),
  ("console", "Console utilities", "utility"),
  ("constants", "System constants", "system"),
  ("crypto", "Cryptographic functionality", "security"),
  ("dgram", "UDP/datagram sockets", "network"),
  ("diagnostics_channel", "Diagnostics channel API", "utility"),
  ("dns", "DNS lookups", "network"),
  ("domain", "Domain error handling", "utility"),
  ("events", "Event emitter", "utility"),
  ("fs", "File system operations", "system"),
  ("http", "HTTP server and client", "network"),
  ("http2", "HTTP/2 server and client", "network"),
  ("https", "HTTPS server and client", "network"),
  ("inspector", "Inspector API", "utility"),
  ("module", "Module system utilities", "system"),
  ("net", "TCP networking", "network"),
  ("os", "Operating system utilities", "system"),
  ("path", "File path utilities", "utility"),
  ("perf_hooks", "Performance measurement", "utility"),
  ("process", "Process object", "system"),
  ("punycode", "Punycode encoding/decoding", "utility"),
  ("querystring", "Query string utilities", "utility"),
  ("readline", "Readline interface", "utility"),
  ("repl", "Read-eval-print loop", "utility"),
  ("stream", "Streaming data", "utility"),
  ("string_decoder", "String decoder", "utility"),
  ("sys", "System utilities (deprecated)", "system"),
  ("timers", "Timer functions", "utility"),
  ("tls", "TLS/SSL encryption", "security"),
  ("trace_events", "Trace events", "utility"),
  ("tty", "TTY utilities", "system"),
  ("url", "URL parsing", "utility"),
  ("util", "Utility functions", "utility"),
  ("v8", "V8 engine utilities", "system"),
  ("vm", "Virtual machine context", "system"),
  ("wasi", "WebAssembly System Interface", "system"),
  ("worker_threads", "Worker threads", "system"),
  ("zlib", "Compression utilities", "utility"),
  ("test", "Test runner", "testing")]

/-- The six package categories of PACKAGE_CATEGORIES in utils/semantic-search.ts; keyword arrays keep duplicates exactly as in the source; all weights are 1.0. -/
def uiKeywords : List String := [
  "react", "vue", "angular", "component", "ui", "interface",
  "design", "styled", "css", "bootstrap", "material", "antd",
  "chakra", "semantic", "tailwind", "theme", "layout", "grid",
  "flex", "button", "form", "input", "modal", "dropdown",
  "menu", "navigation", "chart", "graph", "visualization", "datepicker",
  "calendar", "slider", "tooltip", "popover", "toast", "notification",
  "animation", "transition", "icon", "image", "gallery", "carousel",
  "slider", "accordion", "tabs", "pagination", "table", "grid",
  "list"]

def dataKeywords : List String := [
  "database", "sql", "nosql", "mongodb", "postgres", "mysql",
  "redis", "orm", "query", "schema", "migration", "json",
  "xml", "csv", "parser", "serialization", "validation", "transform",
  "filter", "sort", "aggregate", "cache", "storage", "persistence",
  "indexing", "search", "elasticsearch", "solr", "lucene", "analytics",
  "metrics", "logging", "monitoring", "backup", "sync", "replication"]

def networkKeywords : List String := [
  "http", "https", "request", "client", "server", "api",
  "rest", "graphql", "websocket", "socket", "tcp", "udp",
  "proxy", "middleware", "cors", "auth", "jwt", "oauth",
  "session", "cookie", "express", "koa", "fastify", "hapi",
  "nest", "apollo", "axios", "fetch", "superagent", "request",
  "curl", "download", "upload", "stream", "chunk", "compress",
  "gzip", "deflate", "ssl", "tls", "certificate", "encryption",
  "security"]

def testingKeywords : List String := [
  "test", "testing", "jest", "mocha", "chai", "jasmine",
  "karma", "cypress", "selenium", "playwright", "puppeteer", "mock",
  "stub", "spy", "fixture", "assertion", "expect", "should",
  "coverage", "benchmark", "performance", "load", "stress", "unit",
  "integration", "e2e", "snapshot", "runner", "framework", "suite",
  "spec", "describe", "it", "before", "after", "setup",
  "teardown"]

def buildKeywords : List String := [
  "build", "webpack", "rollup", "vite", "parcel", "babel",
  "typescript", "compiler", "transpiler", "bundler", "minify", "optimize",
  "uglify", "terser", "postcss", "sass", "less", "stylus",
  "plugin", "loader", "preset", "config", "eslint", "prettier",
  "lint", "format", "gulp", "grunt", "task", "runner",
  "deploy", "ci", "cd", "github", "actions", "jenkins",
  "travis", "circle"]

def utilityKeywords : List String := [
  "util", "helper", "lodash", "underscore", "ramda", "moment",
  "date", "time", "format", "parse", "string", "number",
  "math", "crypto", "hash", "uuid", "guid", "random",
  "color", "path", "file", "directory", "fs", "stream",
  "buffer", "array", "object", "collection", "functional", "promise",
  "async", "await", "throttle", "debounce", "retry", "queue",
  "stack", "tree", "graph", "algorithm", "sort", "search",
  "binary", "regex", "pattern", "match"]

def PACKAGE_CATEGORIES : List Category := [
  { name := "ui", keywords := uiKeywords, weight := 1 },
  { name := "data", keywords := dataKeywords, weight := 1 },
  { name := "network", keywords := networkKeywords, weight := 1 },
  { name := "testing", keywords := testingKeywords, weight := 1 },
  { name := "build", keywords := buildKeywords, weight := 1 },
  { name := "utility", keywords := utilityKeywords, weight := 1 }]

/-- FUNCTIONALITY_MAPPINGS in utils/semantic-search.ts: phrase to package-name list. -/
def FUNCTIONALITY_MAPPINGS : List (String × List String) := [
  ("http client", ["axios", "node-fetch", "superagent", "got", "request"]),
  ("http server", ["express", "koa", "fastify", "hapi", "nest"]),
  ("api testing", ["supertest", "nock", "msw", "jest"]),
  ("websocket", ["ws", "socket.io", "socketio"]),
  ("graphql", ["graphql", "apollo-server", "apollo-client", "relay"]),
  ("database", ["mongoose", "sequelize", "typeorm", "prisma", "knex"]),
  ("mongodb", ["mongoose", "mongodb"]),
  ("postgresql", ["pg", "sequelize", "typeorm", "prisma"]),
  ("mysql", ["mysql", "mysql2", "sequelize", "typeorm"]),
  ("redis", ["redis", "ioredis"]),
  ("orm", ["sequelize", "typeorm", "prisma", "objection"]),
  ("react", ["react", "react-dom", "react-router", "react-redux", "styled-components"]),
  ("vue", ["vue", "vue-router", "vuex", "nuxt"]),
  ("angular", ["@angular/core", "@angular/common", "@angular/router"]),
  ("ui components", ["antd", "material-ui", "chakra-ui", "semantic-ui-react"]),
  ("styling", ["styled-components", "emotion", "tailwindcss", "bootstrap"]),
  ("animation", ["framer-motion", "react-spring", "lottie-react", "gsap"]),
  ("charts", ["chart.js", "recharts", "d3", "plotly.js"]),
  ("testing", ["jest", "mocha", "chai", "jasmine", "vitest"]),
  ("e2e testing", ["cypress", "playwright", "puppeteer", "selenium-webdriver"]),
  ("mocking", ["jest", "sinon", "msw", "nock"]),
  ("bundling", ["webpack", "rollup", "vite", "parcel", "esbuild"]),
  ("transpiling", ["babel", "typescript", "swc"]),
  ("linting", ["eslint", "prettier", "jshint", "tslint"]),
  ("task runner", ["gulp", "grunt", "npm-run-all"]),
  ("date handling", ["moment", "date-fns", "dayjs", "luxon"]),
  ("validation", ["joi", "yup", "zod", "ajv"]),
  ("logging", ["winston", "pino", "bunyan", "debug"]),
  ("utilities", ["lodash", "underscore", "ramda", "rxjs"]),
  ("file processing", ["fs-extra", "glob", "chokidar", "sharp"]),
  ("crypto", ["crypto-js", "bcrypt", "jsonwebtoken", "uuid"]),
  ("process management", ["pm2", "forever", "nodemon", "concurrently"]),
  ("json", ["json5", "hjson", "jsonpath", "fast-json-stringify"]),
  ("xml", ["xml2js", "fast-xml-parser", "xmldom"]),
  ("csv", ["csv-parser", "fast-csv", "papaparse"]),
  ("yaml", ["js-yaml", "yaml"])]

/-- `isNodeBuiltinModule` from utils/builtin-modules: exact set membership. -/
def isNodeBuiltinModule (moduleName : String) : Bool :=
  NODE_BUILTIN_MODULES.contains moduleName

/-- The description field of `getBuiltinModuleInfo` for a module already
known to be built in: remove the first occurrence of `node:`, look the
clean name up in the description table, defaulting to the generic
description. -/
def getBuiltinModuleDescription (moduleName : String) : String :=
  let cleanName := jsReplaceFirst moduleName "node:"
  match builtinModuleDescriptions.find? (fun d => d.1 == cleanName) with
  | some d => d.2.1
  | none => "Node.js built-in module"

/-! ### Import validation

`ValidationResult` of types.ts.  Optional fields are absent (`none`) unless
the source sets them. -/

structure ValidationResult where
  valid : Bool
  packageName : String
  modulePath : Option String := none
  reason : Option String := none
  suggestions : Option (List String) := none
deriving DecidableEq

/-- The bidirectional-containment similarity test every engine uses:
`name.includes(target) || target.includes(name)` (case-sensitive). -/
def similarName (name target : String) : Bool :=
  jsIncludes name target || jsIncludes target name

/-- `JavaScriptDiscoveryEngine.getSimilarPackages`: filter the declared
dependencies (dependencies plus devDependencies of the located
package.json, passed in as `allDeps`) by bidirectional containment and
keep the first five. -/
def jsGetSimilarPackages (allDeps : List String) (packageName : String) : List String :=
  (allDeps.filter (fun name => similarName name packageName)).take 5

/-- `PythonDiscoveryEngine.getSimilarPackages`: installed-package matches
first (from the pip/conda listing, passed in as `installedNames`), then
standard-library matches, truncated to five. -/
def pythonGetSimilarPackages (installedNames : List String) (packageName : String) : List String :=
  ((installedNames.filter (fun name => similarName name packageName)) ++
    (PYTHON_STDLIB_MODULES.filter (fun name => similarName name packageName))).take 5

/-- `RustDiscoveryEngine.getSimilarPackages`: Cargo.toml dependency matches
first (passed in as `allDeps`), then standard-library matches, truncated
to five. -/
def rustGetSimilarPackages (allDeps : List String) (packageName : String) : List String :=
  ((allDeps.filter (fun name => similarName name packageName)) ++
    (RUST_STDLIB_MODULES.filter (fun name => similarName name packageName))).take 5

/-- `PythonDiscoveryEngine.validateImport` after the cache lookup missed.
The pip interrogation (`python -c "import x"`) is the oracle `installed`;
the installed-package listing feeding the suggester is `installedNames`.
The function is total: the source's catch-all never reaches the caller. -/
def pythonValidateImport (installed : String → Bool) (installedNames : List String)
    (importStatement : String) : ValidationResult :=
  match pyExtract importStatement with
  | none =>
    { valid := false, packageName := "unknown",
      reason := some "Could not parse import statement", suggestions := some [] }
  | some packageName =>
    if PYTHON_STDLIB_MODULES.contains packageName then
      { valid := true, packageName, reason := some "Python standard library module" }
    else if installed packageName then
      { valid := true, packageName }
    else
      { valid := false, packageName,
        reason := some ("Package \x27" ++ packageName ++ "\x27 is not installed"),
        suggestions := some (pythonGetSimilarPackages installedNames packageName) }

/-- `JavaScriptDiscoveryEngine.checkPackageExists`: built-in check first,
then the node_modules directory probe, then Node resolution. -/
def jsCheckPackageExists (inNodeModules : String → Bool) (resolvable : String → Bool)
    (packageName : String) : Bool :=
  isNodeBuiltinModule packageName || inNodeModules packageName || resolvable packageName

/-- `JavaScriptDiscoveryEngine.validateImport` after the cache lookup
missed.  The statement has already been fed to the extractor
(`extractResult`); `inNodeModules` and `resolve` are the file-system and
`require.resolve` oracles; `allDeps` the declared dependencies feeding the
suggester.  `modulePath || undefined` maps an empty resolution to an
absent path. -/
def jsValidateImport (extractResult : Option String) (inNodeModules : String → Bool)
    (resolve : String → Option String) (allDeps : List String) : ValidationResult :=
  match extractResult with
  | none =>
    { valid := false, packageName := "unknown",
      reason := some "Could not parse import statement", suggestions := some [] }
  | some packageName =>
    if jsCheckPackageExists inNodeModules (fun p => (resolve p).isSome) packageName then
      let modulePath :=
        match resolve packageName with
        | some p => if p = "" then none else some p
        | none => none
      let result : ValidationResult := { valid := true, packageName, modulePath }
      if isNodeBuiltinModule packageName then
        { result with
            reason := some ("Built-in Node.js module: " ++ getBuiltinModuleDescription packageName) }
      else result
    else
      { valid := false, packageName,
        reason := some ("Package \x27" ++ packageName ++ "\x27 is not installed or available"),
        suggestions := some (jsGetSimilarPackages allDeps packageName) }

example :
    pythonValidateImport (fun _ => false) [] "import os" =
      { valid := true, packageName := "os", reason := some "Python standard library module" } := by
  decide
example :
    (jsValidateImport (some "fs") (fun _ => false) (fun _ => none) []).reason =
      some "Built-in Node.js module: File system operations" := by
  decide

/-! ### The bounded TTL cache

`CacheManager` holds a JavaScript `Map<string, CacheEntry>`, modelled as an
association list in insertion order: `Map.set` of a present key updates the
entry in place (keeping its position), `Map.set` of a fresh key appends,
and `Map.keys().next().value` is the head.  Timestamps and durations are
integers (`Date.now()` milliseconds). -/

structure CacheEntry (α : Type) where
  data : α
  timestamp : Int
  ttl : Int
deriving DecidableEq

abbrev CacheState (α : Type) := List (String × CacheEntry α)

namespace CacheManager

/-- `Map.get`. -/
def mapGet {α : Type} (k : String) (st : CacheState α) : Option (CacheEntry α) :=
  (st.find? (fun p => p.1 == k)).map (·.2)

/-- `Map.set`: update in place when the key is present, append otherwise. -/
def mapSet {α : Type} (k : String) (e : CacheEntry α) (st : CacheState α) : CacheState α :=
  if (st.find? (fun p => p.1 == k)).isSome then
    st.map (fun p => if p.1 == k then (k, e) else p)
  else st ++ [(k, e)]

/-- `Map.delete`: removes the (unique) entry with the key, if any. -/
def mapDelete {α : Type} (k : String) (st : CacheState α) : CacheState α :=
  st.eraseP (fun p => p.1 == k)

/-- `CacheManager.get`: a miss returns `null`; an entry with
`now - timestamp > ttl` is deleted and reported as a miss; otherwise the
stored data is returned unchanged.  Total — the source never throws. -/
def get {α : Type} (now : Int) (k : String) (st : CacheState α) : Option α × CacheState α :=
  match mapGet k st with
  | none => (none, st)
  | some entry =>
    if now - entry.timestamp > entry.ttl then (none, mapDelete k st)
    else (some entry.data, st)

/-- `CacheManager.set`: when `size >= maxSize` the first key of the map is
fetched and—only when it is truthy, i.e. not the empty string—deleted;
then the new entry is written with `customTtl ?? options.ttl`. -/
def set {α : Type} (maxSize : Nat) (defaultTtl : Int) (now : Int) (k : String) (v : α)
    (customTtl : Option Int) (st : CacheState α) : CacheState α :=
  let st1 :=
    if st.length ≥ maxSize then
      match st.head? with
      | some (oldestKey, _) => if oldestKey ≠ "" then mapDelete oldestKey st else st
      | none => st
    else st
  mapSet k { data := v, timestamp := now, ttl := customTtl.getD defaultTtl } st1

/-- `CacheManager.delete`. -/
def delete {α : Type} (k : String) (st : CacheState α) : CacheState α := mapDelete k st

/-- `CacheManager.clear`. -/
def clear {α : Type} (_st : CacheState α) : CacheState α := []

/-- `CacheManager.cleanup` (the periodic sweep): delete every expired
entry. -/
def cleanup {α : Type} (now : Int) (st : CacheState α) : CacheState α :=
  st.filter (fun p => !(now - p.2.timestamp > p.2.ttl))

end CacheManager

/-- One externally observable cache operation, with the wall-clock reading
at which it runs. -/
inductive CacheOp (α : Type) where
  | set (now : Int) (k : String) (v : α) (customTtl : Option Int)
  | get (now : Int) (k : String)
  | del (k : String)
  | clear
  | cleanup (now : Int)

def applyOp {α : Type} (maxSize : Nat) (defaultTtl : Int) (st : CacheState α) :
    CacheOp α → CacheState α
  | .set now k v customTtl => CacheManager.set maxSize defaultTtl now k v customTtl st
  | .get now k => (CacheManager.get now k st).2
  | .del k => CacheManager.delete k st
  | .clear => CacheManager.clear st
  | .cleanup now => CacheManager.cleanup now st

/-- Run a sequence of cache operations from the empty cache a fresh
`CacheManager` starts with. -/
def runOps {α : Type} (maxSize : Nat) (defaultTtl : Int) (ops : List (CacheOp α)) : CacheState α :=
  ops.foldl (applyOp maxSize defaultTtl) []

/-! ### Cache-key construction -/

/-- One argument of `CacheManager.generateKey`
(`string | number | boolean | undefined`). -/
inductive JsParam where
  | str (s : String)
  | num (n : Int)
  | bool (b : Bool)
  | undef
deriving DecidableEq

/-- `String(part)` for the parameter values that survive the filter. -/
def JsParam.toStr : JsParam → String
  | .str s => s
  | .num n => toString n
  | .bool b => if b then "true" else "false"
  | .undef => "undefined"

/-- `CacheManager.generateKey(...parts)`: drop `undefined` parts, stringify
the rest, join with `:`. -/
def CacheManager.generateKey (parts : List JsParam) : String :=
  String.intercalate ":" ((parts.filter (fun p => p ≠ .undef)).map JsParam.toStr)

/-! ### The four operation inputs (types.ts zod schemas; only the fields the
embedded operations consult are modelled). -/

structure DiscoverPackagesInput where
  language : String
  searchTerm : Option String
  includeDevDependencies : Bool
  maxResults : Nat
deriving DecidableEq

structure ValidateImportInput where
  importStatement : String
  language : String
  projectPath : Option String
deriving DecidableEq

structure IntrospectModuleInput where
  moduleName : String
  language : String
  includePrivate : Bool
  maxDepth : Nat
deriving DecidableEq

structure SearchAffordancesInput where
  query : String
  language : String
  category : String
  maxResults : Nat
deriving DecidableEq

/-- Cache key of `JavaScriptDiscoveryEngine.validateImport`. -/
def jsValidateImportCacheKey (i : ValidateImportInput) : String :=
  CacheManager.generateKey [.str "validate", .str i.importStatement, .str i.language,
    match i.projectPath with | some p => .str p | none => .undef]

/-- Cache key of `PythonDiscoveryEngine.validateImport`: only the statement
enters. -/
def pythonValidateImportCacheKey (i : ValidateImportInput) : String :=
  CacheManager.generateKey [.str "validate_python", .str i.importStatement]

/-- Cache key of `JavaScriptDiscoveryEngine.introspectModule`: all four
input fields enter. -/
def jsIntrospectModuleCacheKey (i : IntrospectModuleInput) : String :=
  CacheManager.generateKey [.str "introspect", .str i.moduleName, .str i.language,
    .bool i.includePrivate, .num (Int.ofNat i.maxDepth)]

/-- Cache key of `RustDiscoveryEngine.introspectModule`: only the module
name enters. -/
def rustIntrospectModuleCacheKey (i : IntrospectModuleInput) : String :=
  CacheManager.generateKey [.str "introspect_rust", .str i.moduleName]

example :
    CacheManager.generateKey [.str "a", .undef, .str "b"] =
      CacheManager.generateKey [.str "a", .str "b"] := by decide
example :
    jsIntrospectModuleCacheKey
        { moduleName := "fs", language := "javascript", includePrivate := true, maxDepth := 2 } =
      "introspect:fs:javascript:true:2" := by decide

/-! ### The relevance scorer (utils/semantic-search.ts)

`PackageInfo` of types.ts, restricted to the fields the scorer, the
search pipeline and the discovery loops consult; `category` and
`semanticScore` are the two fields `enhancePackageInfo` adds by object
spread.  String lowering is the host `toLowerCase`, embedded as the
ASCII lowering `jsToLower`.
Scores are JavaScript numbers; every addend is a whole number (all
category weights are 1.0), so scores are modelled as naturals. -/

structure PackageInfo where
  name : String
  version : String
  description : Option String := none
  installed : Bool
  path : Option String := none
  category : Option String := none
  semanticScore : Option Nat := none
deriving DecidableEq

/-- `calculateSemanticScore`, statement for statement: the five scoring
blocks run in source order over an accumulator.  Pure and total. -/
def calculateSemanticScore (query : String) (packageInfo : PackageInfo) : Nat :=
  let queryLower := jsToLower query
  let packageName := jsToLower packageInfo.name
  let description := jsToLower (packageInfo.description.getD "")
  let score0 : Nat := 0
  let score1 := if packageName == queryLower then score0 + 100 else score0
  let score2 :=
    if jsIncludes packageName queryLower || jsIncludes queryLower packageName then score1 + 50
    else score1
  let queryWords := jsSplitWs queryLower
  let descriptionWords := jsSplitWs description
  let score3 := queryWords.foldl (fun acc queryWord =>
    let acc1 := if jsIncludes packageName queryWord then acc + 30 else acc
    if descriptionWords.any (fun word => jsIncludes word queryWord) then acc1 + 20 else acc1) score2
  let score4 := PACKAGE_CATEGORIES.foldl (fun acc c =>
    let matchingKeywords := c.keywords.filter (fun keyword =>
      jsIncludes queryLower keyword || jsIncludes packageName keyword ||
        jsIncludes description keyword)
    if matchingKeywords.length > 0 then acc + matchingKeywords.length * 10 * c.weight else acc)
    score3
  let score5 := FUNCTIONALITY_MAPPINGS.foldl (fun acc fp =>
    if jsIncludes queryLower fp.1 then
      (if fp.2.contains packageName then acc + 40 else acc)
    else acc) score4
  score5

/-- The reference additive scoring formula, written from the
specification's words (§4.6): +100 exact lowercased name match, +50
bidirectional containment, per query word +30/+20, per category
`matchingKeywordCount * 10 * weight` when any keyword hits, +40 per
functionality phrase contained in the query whose package list holds the
record's (lowercased) name. -/
def semanticScoreSpec (query : String) (packageInfo : PackageInfo) : Nat :=
  let queryLower := jsToLower query
  let name := jsToLower packageInfo.name
  let description := jsToLower (packageInfo.description.getD "")
  let exactScore : Nat := if name == queryLower then 100 else 0
  let containScore : Nat :=
    if jsIncludes name queryLower || jsIncludes queryLower name then 50 else 0
  let descriptionWords := jsSplitWs description
  let wordScore := ((jsSplitWs queryLower).map (fun w =>
    (if jsIncludes name w then 30 else 0) +
      (if descriptionWords.any (fun d => jsIncludes d w) then 20 else 0))).sum
  let categoryScore := (PACKAGE_CATEGORIES.map (fun c =>
    let matching := c.keywords.filter (fun k =>
      jsIncludes queryLower k || jsIncludes name k || jsIncludes description k)
    if matching.length > 0 then matching.length * 10 * c.weight else 0)).sum
  let functionalityScore := (FUNCTIONALITY_MAPPINGS.map (fun fp =>
    if jsIncludes queryLower fp.1 && fp.2.contains name then 40 else 0)).sum
  exactScore + containScore + wordScore + categoryScore + functionalityScore

/-- `categorizePackage`: highest weighted keyword-hit count (name hits
weigh 2, description hits 1, strict improvement required), defaulting to
`utility`. -/
def categorizePackage (packageInfo : PackageInfo) : String :=
  let packageName := jsToLower packageInfo.name
  let description := jsToLower (packageInfo.description.getD "")
  (PACKAGE_CATEGORIES.foldl (fun best c =>
    let score := c.keywords.foldl (fun acc keyword =>
      let acc1 := if jsIncludes packageName keyword then acc + 2 else acc
      if jsIncludes description keyword then acc1 + 1 else acc1) 0
    if score > best.2 then (c.name, score) else best) ("utility", 0)).1

/-- `enhancePackageInfo`: annotate with the best category and, when the
query is truthy (present and non-empty), the semantic score. -/
def enhancePackageInfo (packageInfo : PackageInfo) (query : Option String) : PackageInfo :=
  { packageInfo with
      category := some (categorizePackage packageInfo),
      semanticScore :=
        match query with
        | some q => if q ≠ "" then some (calculateSemanticScore q packageInfo) else none
        | none => none }

/-- Stable insertion into a list already sorted by score descending: the
new element goes in front of the first element whose score does not
exceed it, so among equal scores the original relative order survives. -/
def insertByScoreDesc (x : PackageInfo × Nat) :
    List (PackageInfo × Nat) → List (PackageInfo × Nat)
  | [] => [x]
  | y :: ys => if y.2 ≤ x.2 then x :: y :: ys else y :: insertByScoreDesc x ys

/-- The host `Array.prototype.sort` with comparator
`(a, b) => b.score - a.score` is a stable descending sort; this insertion
sort computes exactly that order. -/
def sortByScoreDesc (l : List (PackageInfo × Nat)) : List (PackageInfo × Nat) :=
  l.foldr insertByScoreDesc []

/-- `searchPackagesSemanticaly`: score every package, filter by the
category's keyword list when a category other than `all` is requested,
drop zero scores, sort by score descending (stable), truncate, un-pair. -/
def searchPackagesSemanticaly (query : String) (packages : List PackageInfo)
    (category : String) (maxResults : Nat) : List PackageInfo :=
  let scoredPackages := packages.map (fun pkg => (pkg, calculateSemanticScore query pkg))
  let filteredPackages :=
    if category ≠ "all" then
      let categoryKeywords :=
        ((PACKAGE_CATEGORIES.find? (fun c => c.name == category)).map (·.keywords)).getD []
      scoredPackages.filter (fun sp =>
        categoryKeywords.any (fun keyword =>
          jsIncludes (jsToLower sp.1.name) keyword ||
            jsIncludes (jsToLower (sp.1.description.getD "")) keyword))
    else scoredPackages
  (((sortByScoreDesc (filteredPackages.filter (fun sp => sp.2 > 0))).take maxResults).map (·.1))

/-! ### Discovery and functionality search -/

/-- `DiscoveryResult` of types.ts.  The `timestamp` field
(`new Date().toISOString()`) is wall-clock output outside the model and is
omitted. -/
structure DiscoveryResult where
  packages : List PackageInfo
  totalFound : Nat
  searchTerm : Option String
  language : String
deriving DecidableEq

/-- `PythonDiscoveryEngine.getStandardLibraryMatches`: for a truthy search
term, every standard-library module whose name contains the lowercased
term, presented as an installed stdlib package. -/
def pythonGetStandardLibraryMatches (searchTerm : String) : List PackageInfo :=
  if searchTerm = "" then []
  else
    (PYTHON_STDLIB_MODULES.filter (fun m => jsIncludes m (jsToLower searchTerm))).map (fun m =>
      { name := m, version := "stdlib",
        description := some "Python standard library module", installed := true })

/-- `PythonDiscoveryEngine.discoverPackages` after the cache lookup
missed; the pip/conda listing is the `installedPackages` oracle.  A truthy
search term filters installed packages by name or description; stdlib
matches top the list up when fewer than `maxResults` were found. -/
def pythonDiscoverPackages (installedPackages : List PackageInfo)
    (input : DiscoverPackagesInput) : DiscoveryResult :=
  let filteredPackages :=
    match input.searchTerm with
    | some t =>
      if t ≠ "" then
        installedPackages.filter (fun (pkg : PackageInfo) =>
          jsIncludes (jsToLower pkg.name) (jsToLower t) ||
            (pkg.description.isSome && jsIncludes (jsToLower (pkg.description.getD "")) (jsToLower t)))
      else installedPackages
    | none => installedPackages
  let packages := filteredPackages.take input.maxResults
  let packages :=
    if packages.length < input.maxResults then
      packages ++
        (pythonGetStandardLibraryMatches ((input.searchTerm).getD "")).take
          (input.maxResults - packages.length)
    else packages
  { packages := packages.take input.maxResults, totalFound := packages.length,
    searchTerm := input.searchTerm, language := "python" }

/-- `PythonDiscoveryEngine.searchAffordances`: a plain delegation to
`discoverPackages` with the query as search term. -/
def pythonSearchAffordances (installedPackages : List PackageInfo)
    (input : SearchAffordancesInput) : DiscoveryResult :=
  pythonDiscoverPackages installedPackages
    { language := input.language, searchTerm := some input.query,
      includeDevDependencies := true, maxResults := input.maxResults }

/-- `JavaScriptDiscoveryEngine.searchAffordances` after the cache lookup
missed: enumerate via `discoverPackages` with an empty search term and
`maxResults` 1000 (the engine's own discovery, dependent on the file
system and npm, is the `discover` oracle), enhance, semantically search,
repackage. -/
def jsSearchAffordances (discover : DiscoverPackagesInput → DiscoveryResult)
    (input : SearchAffordancesInput) : DiscoveryResult :=
  let allPackagesResult := discover
    { language := input.language, searchTerm := some "",
      includeDevDependencies := true, maxResults := 1000 }
  let enhancedPackages := allPackagesResult.packages.map (fun pkg =>
    enhancePackageInfo pkg (some input.query))
  let searchResults :=
    searchPackagesSemanticaly input.query enhancedPackages input.category input.maxResults
  { packages := searchResults, totalFound := searchResults.length,
    searchTerm := some input.query, language := input.language }

/-- Modelled from the spec: the §4.8 `searchAffordances` pipeline every
engine is claimed to implement — run the engine's own `discoverPackages`
with an empty search term to enumerate the full candidate set, annotate
each candidate with category and score, rank (drop zero scores, stable
descending sort), return the top `maxResults`. -/
def searchAffordancesSpec (discover : DiscoverPackagesInput → DiscoveryResult)
    (input : SearchAffordancesInput) : DiscoveryResult :=
  let candidates := (discover
    { language := input.language, searchTerm := some "",
      includeDevDependencies := true, maxResults := 1000 }).packages
  let annotated := candidates.map (fun pkg => enhancePackageInfo pkg (some input.query))
  let ranked := searchPackagesSemanticaly input.query annotated input.category input.maxResults
  { packages := ranked, totalFound := ranked.length,
    searchTerm := some input.query, language := input.language }

/-! ### Module introspection (JavaScript engine) -/

inductive ExportKind where
  | function
  | classKind
  | constant
  | typeKind
  | interface
  | namespaceKind
deriving DecidableEq

/-- `ModuleExport` of types.ts (the `parameters`/`returnType` details of
AST-extracted signatures ride along inside the oracle output and are not
needed by the claims). -/
structure ModuleExport where
  name : String
  type : ExportKind
  signature : Option String := none
  description : Option String := none
deriving DecidableEq

/-- `ModuleInfo` of types.ts. -/
structure ModuleInfo where
  name : String
  path : String
  exports : List ModuleExport
  submodules : List String
  dependencies : List String
deriving DecidableEq

/-- Node's POSIX `path.dirname`: everything before the last slash that
still has a non-slash character after it (ignoring position 0), with the
source's special cases for rootless inputs, a root-only result, and a
double-slash root.  In particular `dirname('') = '.'`. -/
def dirnameScan : List Char → Bool → Option (List Char)
  | [], _ => none
  | c :: cs, seen =>
    if c = '/' then
      if seen then some cs else dirnameScan cs seen
    else dirnameScan cs true

def nodeDirname (p : String) : String :=
  match p.toList with
  | [] => "."
  | c0 :: rest =>
    let hasRoot := c0 = '/'
    match dirnameScan rest.reverse false with
    | none => if hasRoot then "/" else "."
    | some b => if hasRoot ∧ b = [] then "//" else String.mk (c0 :: b.reverse)

/-- Node's POSIX `path.join` restricted to the shapes the engine produces
(a directory result of `nodeDirname` joined with a file name): joining
from `''` or `'.'` normalizes to the bare file name. -/
def nodeJoin (a b : String) : String :=
  if a = "" then b
  else if a = "." then b
  else
    let a2 := String.mk ((a.toList.reverse.dropWhile (· = '/')).reverse)
    if a2 = "" then "/" ++ b else a2 ++ "/" ++ b

/-- Runtime shape of a binding enumerated by the dynamic-import fallback:
`typeof value === 'function'`, a plain object (constructor named
`Object`), or anything else. -/
inductive JsShape where
  | callable
  | plainObject
  | other
deriving DecidableEq

structure RuntimeMember where
  name : String
  shape : JsShape
deriving DecidableEq

/-- The dynamic tier's classification of one runtime binding. -/
def classifyMember (m : RuntimeMember) : ModuleExport :=
  match m.shape with
  | .callable => { name := m.name, type := .function, signature := some (m.name ++ "()") }
  | .plainObject => { name := m.name, type := .namespaceKind }
  | .other => { name := m.name, type := .constant }

/-- `JavaScriptDiscoveryEngine.analyzeModuleExports`.  A built-in module
short-circuits to one synthetic namespace export.  Otherwise, with a
resolved path, the AST tier (oracle `ast`, `none` when parsing throws) is
tried and its private-filtered exports returned when non-empty; then the
dynamic-import tier (oracle `dyn`).  When everything so far produced no
exports — including the unresolved-path case — the final fallback reads
the `exports` keys (oracle `pkgExports`) of the package.json next to the
resolved path, which for an unresolved module is
`join(dirname(''), 'package.json') = 'package.json'`, the current
directory's manifest. -/
def analyzeModuleExports (ast : String → Option (List ModuleExport))
    (dyn : String → Option (List RuntimeMember))
    (pkgExports : String → Option (List String))
    (moduleName : String) (modulePath : Option String) (includePrivate : Bool) :
    List ModuleExport :=
  if isNodeBuiltinModule moduleName then
    [{ name := "default", type := .namespaceKind, signature := some moduleName,
       description := some (getBuiltinModuleDescription moduleName) }]
  else
    let fromTiers : List ModuleExport :=
      match modulePath with
      | none => []
      | some p =>
        let astExports :=
          match ast p with
          | some result => result.filter (fun e => includePrivate || !(e.name.startsWith "_"))
          | none => []
        if astExports.length > 0 then astExports
        else
          match dyn p with
          | some members =>
            (members.filter (fun m => includePrivate || !(m.name.startsWith "_"))).map
              classifyMember
          | none => []
    if fromTiers.length = 0 then
      match pkgExports (nodeJoin (nodeDirname (modulePath.getD "")) "package.json") with
      | some exportPaths => exportPaths.map (fun exportPath =>
          { name := if exportPath = "." then "default" else exportPath,
            type := ExportKind.namespaceKind })
      | none => []
    else fromTiers

/-- `JavaScriptDiscoveryEngine.introspectModule` after the cache lookup
missed: resolve the path (oracle `resolve` standing for `require.resolve`
from the working directory), analyze exports, list sibling submodules
(file-system oracle `submods`, capped at ten by the source), read the
module's declared dependencies (oracle `deps`). -/
def jsIntrospectModule (resolve : String → Option String)
    (ast : String → Option (List ModuleExport))
    (dyn : String → Option (List RuntimeMember))
    (pkgExports : String → Option (List String))
    (submods : String → List String) (deps : String → List String)
    (input : IntrospectModuleInput) : ModuleInfo :=
  let modulePath := resolve input.moduleName
  { name := input.moduleName,
    path := modulePath.getD "",
    exports := analyzeModuleExports ast dyn pkgExports input.moduleName modulePath
      input.includePrivate,
    submodules :=
      match modulePath with
      | none => []
      | some p => (submods p).take 10,
    dependencies := deps input.moduleName }

example : nodeDirname "" = "." := by decide
example : nodeDirname "/a/b" = "/a" := by decide
example : nodeDirname "a" = "." := by decide
example : nodeJoin "." "package.json" = "package.json" := by decide
example : nodeJoin "/x/y" "package.json" = "/x/y/package.json" := by decide

/-! ## Claim theorems -/

lemma builtin_reason_ne_empty (d : String) : ("Built-in Node.js module: " ++ d) ≠ "" := by
  intro h
  have h2 := congrArg String.length h
  rw [String.length_append] at h2
  have h3 : ("Built-in Node.js module: " : String).length = 25 := rfl
  have h4 : ("" : String).length = 0 := rfl
  rw [h3, h4] at h2
  omega

/-- C1: for every import statement whose extracted root identifier belongs
to the ecosystem's standard-library set, `validateImport` (Python and
JavaScript engines) returns valid=true with a non-empty informational
reason, and the outcome is independent of the installed-package /
manifest-declaration oracles — standard-library membership is decided
first and takes precedence. -/
theorem validateImport_stdlib_valid :
    (∀ (installed₁ installed₂ : String → Bool) (names₁ names₂ : List String)
        (stmt name : String),
      pyExtract stmt = some name → PYTHON_STDLIB_MODULES.contains name = true →
      pythonValidateImport installed₁ names₁ stmt =
        { valid := true, packageName := name,
          reason := some "Python standard library module" } ∧
      ("Python standard library module" : String) ≠ "" ∧
      pythonValidateImport installed₁ names₁ stmt =
        pythonValidateImport installed₂ names₂ stmt) ∧
    (∀ (inNodeModules₁ inNodeModules₂ : String → Bool) (resolve : String → Option String)
        (deps₁ deps₂ : List String) (name : String),
      isNodeBuiltinModule name = true →
      (jsValidateImport (some name) inNodeModules₁ resolve deps₁).valid = true ∧
      (jsValidateImport (some name) inNodeModules₁ resolve deps₁).reason =
        some ("Built-in Node.js module: " ++ getBuiltinModuleDescription name) ∧
      ("Built-in Node.js module: " ++ getBuiltinModuleDescription name) ≠ "" ∧
      jsValidateImport (some name) inNodeModules₁ resolve deps₁ =
        jsValidateImport (some name) inNodeModules₂ resolve deps₂) := by
  constructor
  · intro installed₁ installed₂ names₁ names₂ stmt name hex hstd
    unfold pythonValidateImport
    rw [hex]
    have hmem : name ∈ PYTHON_STDLIB_MODULES := List.mem_of_elem_eq_true hstd
    simp [hmem]
  · intro m₁ m₂ resolve d₁ d₂ name hb
    unfold jsValidateImport jsCheckPackageExists
    simp [hb, builtin_reason_ne_empty]

/-- Witness for C1 at concrete inputs: `import os` against the Python
engine and root `fs` against the JavaScript engine. -/
theorem validateImport_stdlib_valid_witness :
    pythonValidateImport (fun _ => false) [] "import os" =
      { valid := true, packageName := "os",
        reason := some "Python standard library module" } ∧
    (jsValidateImport (some "fs") (fun _ => false) (fun _ => none) []).valid = true :=
  ⟨(validateImport_stdlib_valid.1 (fun _ => false) (fun _ => true) [] ["x"]
      "import os" "os" (by decide) (by decide)).1,
   (validateImport_stdlib_valid.2 (fun _ => false) (fun _ => true) (fun _ => none)
      [] [] "fs" (by decide)).1⟩

/-- C2: when the extractor matches none of its patterns, `validateImport`
returns valid=false with packageName exactly `unknown`, a could-not-parse
reason and an empty suggestions list; both embedded validators are total,
so no exception can reach the caller. -/
theorem validateImport_unparseable :
    (∀ (installed : String → Bool) (names : List String) (stmt : String),
      pyExtract stmt = none →
      pythonValidateImport installed names stmt =
        { valid := false, packageName := "unknown",
          reason := some "Could not parse import statement", suggestions := some [] }) ∧
    (∀ (inNodeModules : String → Bool) (resolve : String → Option String)
        (deps : List String),
      jsValidateImport none inNodeModules resolve deps =
        { valid := false, packageName := "unknown",
          reason := some "Could not parse import statement", suggestions := some [] }) := by
  constructor
  · intro installed names stmt hex
    unfold pythonValidateImport
    rw [hex]
  · intro inNodeModules resolve deps
    rfl

/-- Witness for C2: the string `banana` matches no Python pattern. -/
theorem validateImport_unparseable_witness :
    pythonValidateImport (fun _ => true) ["x"] "banana" =
      { valid := false, packageName := "unknown",
        reason := some "Could not parse import statement", suggestions := some [] } :=
  validateImport_unparseable.1 (fun _ => true) ["x"] "banana" (by decide)

/-- C3: the similarity suggesters return at most five names; every
suggestion is a declared dependency or a standard-library identifier and
satisfies bidirectional substring containment with the target; and the
result is the truncation of declared-dependency matches followed by
standard-library matches, so every dependency suggestion precedes every
standard-library suggestion. -/
theorem getSimilarPackages_bounded_sound :
    ∀ (deps : List String) (target : String),
      ((jsGetSimilarPackages deps target).length ≤ 5 ∧
        (jsGetSimilarPackages deps target).all
          (fun s => deps.contains s && similarName s target) = true) ∧
      ((rustGetSimilarPackages deps target).length ≤ 5 ∧
        (rustGetSimilarPackages deps target).all
          (fun s => (deps.contains s || RUST_STDLIB_MODULES.contains s) &&
            similarName s target) = true ∧
        ∃ ds ss : List String, ds.Sublist deps ∧ ss.Sublist RUST_STDLIB_MODULES ∧
          ds.all (fun s => similarName s target) = true ∧
          ss.all (fun s => similarName s target) = true ∧
          rustGetSimilarPackages deps target = (ds ++ ss).take 5) := by
  intro deps target
  refine ⟨⟨?_, ?_⟩, ?_, ?_, ?_⟩
  · simp [jsGetSimilarPackages, List.length_take]
  · rw [List.all_eq_true]
    intro s hs
    have hmem := List.take_subset _ _ hs
    rw [List.mem_filter] at hmem
    simp only [Bool.and_eq_true]
    exact ⟨List.elem_eq_true_of_mem hmem.1, hmem.2⟩
  · simp [rustGetSimilarPackages, List.length_take]
  · rw [List.all_eq_true]
    intro s hs
    have hmem := List.take_subset _ _ hs
    rw [List.mem_append] at hmem
    simp only [Bool.and_eq_true, Bool.or_eq_true]
    rcases hmem with h | h <;> rw [List.mem_filter] at h
    · exact ⟨Or.inl (List.elem_eq_true_of_mem h.1), h.2⟩
    · exact ⟨Or.inr (List.elem_eq_true_of_mem h.1), h.2⟩
  · refine ⟨deps.filter (fun name => similarName name target),
      RUST_STDLIB_MODULES.filter (fun name => similarName name target),
      List.filter_sublist _, List.filter_sublist _, ?_, ?_, rfl⟩
    · rw [List.all_eq_true]
      intro s hs
      exact (List.mem_filter.mp hs).2
    · rw [List.all_eq_true]
      intro s hs
      exact (List.mem_filter.mp hs).2

/-- C5: `CacheManager.get` returns absence on a missing key; deletes the
entry and returns absence when `now - timestamp > ttl`; and otherwise
returns exactly the stored value without touching the state.  The
function is total — cache reads never throw. -/
theorem cacheManager_get_expiry {α : Type} :
    ∀ (st : CacheState α) (k : String) (now : Int),
      (CacheManager.mapGet k st = none → CacheManager.get now k st = (none, st)) ∧
      (∀ e : CacheEntry α, CacheManager.mapGet k st = some e →
        now - e.timestamp > e.ttl →
        CacheManager.get now k st = (none, CacheManager.mapDelete k st)) ∧
      (∀ e : CacheEntry α, CacheManager.mapGet k st = some e →
        ¬ now - e.timestamp > e.ttl →
        CacheManager.get now k st = (some e.data, st)) := by
  intro st k now
  refine ⟨?_, ?_, ?_⟩
  · intro h
    unfold CacheManager.get
    rw [h]
  · intro e h hexp
    unfold CacheManager.get
    rw [h]
    simp [hexp]
  · intro e h hexp
    unfold CacheManager.get
    rw [h]
    simp [hexp]

/-- Witness for C5: a stored entry of ttl 10 read at time 100 is expired,
evicted on read, and reported absent. -/
theorem cacheManager_get_expiry_witness :
    CacheManager.get (α := Nat) 100 "k" [("k", ⟨42, 0, 10⟩)] = (none, []) :=
  (cacheManager_get_expiry [("k", ⟨42, 0, 10⟩)] "k" 100).2.1 ⟨42, 0, 10⟩ (by decide) (by decide)

/-- C6 fails as stated: the Rust engine's introspect key is built from the
operation name and `moduleName` only, so two requests that differ in
`includePrivate` and `maxDepth` share one cache entry. -/
theorem rustIntrospectCacheKey_sharedEntry :
    ({ moduleName := "serde", language := "rust", includePrivate := true, maxDepth := 1 } :
        IntrospectModuleInput) ≠
      { moduleName := "serde", language := "rust", includePrivate := false, maxDepth := 2 } ∧
    rustIntrospectModuleCacheKey
        { moduleName := "serde", language := "rust", includePrivate := true, maxDepth := 1 } =
      rustIntrospectModuleCacheKey
        { moduleName := "serde", language := "rust", includePrivate := false, maxDepth := 2 } := by
  decide

/-- C6 amended: the Rust introspect key (and likewise the Python validate
key) depends only on the single input field it embeds, so requests
differing in the omitted fields collide; the JavaScript introspect key
embeds all four input fields and separates the colliding pair. -/
theorem engineCacheKeys_fields :
    (∀ i₁ i₂ : IntrospectModuleInput, i₁.moduleName = i₂.moduleName →
      rustIntrospectModuleCacheKey i₁ = rustIntrospectModuleCacheKey i₂) ∧
    (∀ i₁ i₂ : ValidateImportInput, i₁.importStatement = i₂.importStatement →
      pythonValidateImportCacheKey i₁ = pythonValidateImportCacheKey i₂) ∧
    jsIntrospectModuleCacheKey
        { moduleName := "serde", language := "rust", includePrivate := true, maxDepth := 1 } ≠
      jsIntrospectModuleCacheKey
        { moduleName := "serde", language := "rust", includePrivate := false, maxDepth := 2 } := by
  refine ⟨?_, ?_, by decide⟩
  · intro i₁ i₂ h
    unfold rustIntrospectModuleCacheKey
    rw [h]
  · intro i₁ i₂ h
    unfold pythonValidateImportCacheKey
    rw [h]

/-- Witness for the amended C6 at the colliding pair. -/
theorem engineCacheKeys_fields_witness :
    rustIntrospectModuleCacheKey
        { moduleName := "serde", language := "rust", includePrivate := true, maxDepth := 1 } =
      rustIntrospectModuleCacheKey
        { moduleName := "serde", language := "rust", includePrivate := false, maxDepth := 2 } :=
  engineCacheKeys_fields.1
    { moduleName := "serde", language := "rust", includePrivate := true, maxDepth := 1 }
    { moduleName := "serde", language := "rust", includePrivate := false, maxDepth := 2 } rfl

/-- C9 is violated by the code (the spec's invariant is the intent): for a
module whose location cannot be resolved, the final package.json fallback
of `analyzeModuleExports` reads `join(dirname(''), 'package.json')`, the
working directory's own manifest; when that manifest has an `exports`
map, `introspectModule` returns resolvedPath `''` together with a
non-empty exports list — a mixed descriptor. -/
theorem jsIntrospect_unresolved_mixed :
    (jsIntrospectModule (fun _ => none) (fun _ => none) (fun _ => none)
        (fun p => if p = "package.json" then some ["."] else none)
        (fun _ => []) (fun _ => [])
        { moduleName := "left-pad", language := "javascript",
          includePrivate := false, maxDepth := 2 }).path = "" ∧
    (jsIntrospectModule (fun _ => none) (fun _ => none) (fun _ => none)
        (fun p => if p = "package.json" then some ["."] else none)
        (fun _ => []) (fun _ => [])
        { moduleName := "left-pad", language := "javascript",
          includePrivate := false, maxDepth := 2 }).exports =
      [{ name := "default", type := ExportKind.namespaceKind }] := by
  decide

/-- C10: `CacheManager.generateKey` is not injective — dropping an
undefined part and a part containing the `:` delimiter both collide with
a distinct argument list. -/
theorem generateKey_not_injective :
    ([JsParam.str "a", JsParam.undef, JsParam.str "b"] ≠
        [JsParam.str "a", JsParam.str "b"] ∧
      CacheManager.generateKey [JsParam.str "a", JsParam.undef, JsParam.str "b"] =
        CacheManager.generateKey [JsParam.str "a", JsParam.str "b"]) ∧
    ([JsParam.str "a:b"] ≠ [JsParam.str "a", JsParam.str "b"] ∧
      CacheManager.generateKey [JsParam.str "a:b"] =
        CacheManager.generateKey [JsParam.str "a", JsParam.str "b"]) := by
  decide

/-! ### Cache capacity (C4) -/

/-- The key of a `set` operation is not the empty string (every key the
engines actually build starts with a non-empty operation name, so this
holds for all keys the program produces). -/
def opKeyNonempty {α : Type} : CacheOp α → Bool
  | .set _ k _ _ => k != ""
  | _ => true

/-- Invariant carried through every cache operation: the entry count is
bounded by `maxSize` and no stored key is empty. -/
def goodState {α : Type} (maxSize : Nat) (st : CacheState α) : Prop :=
  st.length ≤ maxSize ∧ ∀ p ∈ st, p.1 ≠ ""

lemma mapSet_length {α : Type} (k : String) (e : CacheEntry α) (st : CacheState α) :
    (CacheManager.mapSet k e st).length ≤ st.length + 1 := by
  unfold CacheManager.mapSet
  split
  · simp
  · simp

lemma mapSet_keys {α : Type} {k : String} (e : CacheEntry α) {st : CacheState α}
    (hk : k ≠ "") (hst : ∀ p ∈ st, p.1 ≠ "") :
    ∀ p ∈ CacheManager.mapSet k e st, p.1 ≠ "" := by
  unfold CacheManager.mapSet
  split
  · intro p hp
    rw [List.mem_map] at hp
    obtain ⟨q, hq, rfl⟩ := hp
    split
    · exact hk
    · exact hst q hq
  · intro p hp
    rw [List.mem_append, List.mem_singleton] at hp
    rcases hp with h | rfl
    · exact hst p h
    · exact hk

lemma good_of_sublist {α : Type} {maxSize : Nat} {st st' : CacheState α}
    (h : st'.Sublist st) (hst : goodState maxSize st) : goodState maxSize st' :=
  ⟨le_trans h.length_le hst.1, fun p hp => hst.2 p (h.subset hp)⟩

lemma mapDelete_head {α : Type} (k0 : String) (e0 : CacheEntry α) (rest : CacheState α) :
    CacheManager.mapDelete k0 ((k0, e0) :: rest) = rest := by
  unfold CacheManager.mapDelete
  rw [List.eraseP_cons]
  simp

lemma set_good {α : Type} {maxSize : Nat} (h1 : 1 ≤ maxSize) (defaultTtl now : Int)
    {k : String} (v : α) (customTtl : Option Int) {st : CacheState α}
    (hk : k ≠ "") (hst : goodState maxSize st) :
    goodState maxSize (CacheManager.set maxSize defaultTtl now k v customTtl st) := by
  obtain ⟨hlen, hkeys⟩ := hst
  unfold CacheManager.set
  by_cases hfull : st.length ≥ maxSize
  · cases st with
    | nil =>
      exfalso
      simp only [List.length_nil] at hfull
      omega
    | cons p0 rest =>
      obtain ⟨k0, e0⟩ := p0
      have hk0 : k0 ≠ "" := hkeys (k0, e0) (List.mem_cons_self _ _)
      rw [if_pos hfull]
      simp only [List.head?_cons]
      rw [if_pos hk0, mapDelete_head]
      constructor
      · have hm := mapSet_length k ⟨v, now, customTtl.getD defaultTtl⟩ rest
        simp only [List.length_cons] at hlen
        omega
      · exact mapSet_keys _ hk (fun p hp => hkeys p (List.mem_cons_of_mem _ hp))
  · rw [if_neg hfull]
    show goodState maxSize
      (CacheManager.mapSet k { data := v, timestamp := now, ttl := customTtl.getD defaultTtl } st)
    constructor
    · have hm := mapSet_length k ⟨v, now, customTtl.getD defaultTtl⟩ st
      omega
    · exact mapSet_keys _ hk hkeys

lemma get_snd_sublist {α : Type} (now : Int) (k : String) (st : CacheState α) :
    ((CacheManager.get now k st).2).Sublist st := by
  unfold CacheManager.get
  split
  · simp
  · split
    · exact List.eraseP_sublist _
    · simp

lemma applyOp_good {α : Type} {maxSize : Nat} {defaultTtl : Int} (h1 : 1 ≤ maxSize)
    {st : CacheState α} (hst : goodState maxSize st) (op : CacheOp α)
    (hop : opKeyNonempty op = true) :
    goodState maxSize (applyOp maxSize defaultTtl st op) := by
  cases op with
  | set now k v customTtl =>
    have hk : k ≠ "" := by simpa [opKeyNonempty] using hop
    exact set_good h1 defaultTtl now v customTtl hk hst
  | get now k => exact good_of_sublist (get_snd_sublist now k st) hst
  | del k => exact good_of_sublist (List.eraseP_sublist st) hst
  | clear => exact good_of_sublist (List.nil_sublist st) hst
  | cleanup now => exact good_of_sublist (List.filter_sublist st) hst

lemma foldl_applyOp_good {α : Type} {maxSize : Nat} {defaultTtl : Int} (h1 : 1 ≤ maxSize) :
    ∀ (ops : List (CacheOp α)) (st : CacheState α), goodState maxSize st →
      ops.all opKeyNonempty = true →
      goodState maxSize (ops.foldl (applyOp maxSize defaultTtl) st)
  | [], _, hst, _ => hst
  | op :: ops, st, hst, hall => by
    rw [List.foldl_cons]
    rw [List.all_cons, Bool.and_eq_true] at hall
    exact foldl_applyOp_good h1 ops _ (applyOp_good h1 hst op hall.1) hall.2

/-- C4 amended: provided maxSize is at least one and no inserted key is
the empty string (which holds for every key the engines build), any
sequence of cache operations leaves at most maxSize stored entries; and a
set into a full cache evicts exactly the structurally oldest entry (the
head of the insertion-ordered map) before inserting. -/
theorem cache_capacity_invariant {α : Type} (maxSize : Nat) (defaultTtl : Int)
    (h1 : 1 ≤ maxSize) (ops : List (CacheOp α)) (h2 : ops.all opKeyNonempty = true) :
    (runOps maxSize defaultTtl ops).length ≤ maxSize ∧
    (∀ (st : CacheState α) (now : Int) (k : String) (v : α) (customTtl : Option Int),
      (∀ p ∈ st, p.1 ≠ "") → st.length = maxSize → CacheManager.mapGet k st = none →
      ∃ oldest rest, st = oldest :: rest ∧
        CacheManager.set maxSize defaultTtl now k v customTtl st =
          CacheManager.mapSet k ⟨v, now, customTtl.getD defaultTtl⟩ rest) := by
  constructor
  · exact (foldl_applyOp_good h1 ops [] ⟨by simp, by simp⟩ h2).1
  · intro st now k v customTtl hkeys hlen _hfresh
    cases st with
    | nil =>
      exfalso
      simp only [List.length_nil] at hlen
      omega
    | cons p0 rest =>
      obtain ⟨k0, e0⟩ := p0
      have hk0 : k0 ≠ "" := hkeys (k0, e0) (List.mem_cons_self _ _)
      refine ⟨(k0, e0), rest, rfl, ?_⟩
      unfold CacheManager.set
      rw [if_pos (le_of_eq hlen.symm)]
      simp only [List.head?_cons]
      rw [if_pos hk0, mapDelete_head]

/-- Witness for the amended C4: three distinct non-empty keys into a
capacity-two cache stay within bound, and a set into a full one-entry
cache evicts its head. -/
theorem cache_capacity_invariant_witness :
    (runOps (α := Nat) 2 1000
        [.set 0 "a" 1 none, .set 1 "b" 2 none, .set 2 "c" 3 none]).length ≤ 2 ∧
    ∃ oldest rest, ([("x", ⟨5, 0, 9⟩)] : CacheState Nat) = oldest :: rest ∧
      CacheManager.set 1 1000 3 "y" 7 none [("x", ⟨5, 0, 9⟩)] =
        CacheManager.mapSet "y" ⟨7, 3, 1000⟩ rest :=
  ⟨(cache_capacity_invariant 2 1000 (by decide)
      [.set 0 "a" 1 none, .set 1 "b" 2 none, .set 2 "c" 3 none] (by decide)).1,
   (cache_capacity_invariant 1 1000 (by decide) [] (by decide)).2
     [("x", ⟨5, 0, 9⟩)] 3 "y" 7 none (by decide) (by decide) (by decide)⟩

/-- C4 fails as stated for fully arbitrary keys and sizes: with maxSize 1
an empty-string oldest key is falsy, so `if (oldestKey)` skips the
eviction and a second insert overflows; with maxSize 0 the empty map
yields no eviction candidate and the first insert already overflows. -/
theorem cache_capacity_counterexample :
    (runOps (α := Nat) 1 1000 [.set 0 "" 1 none, .set 1 "a" 2 none]).length > 1 ∧
    (runOps (α := Nat) 0 1000 [.set 0 "a" 1 none]).length > 0 := by
  decide

/-! ### Relevance scorer (C7) and functionality search (C8) -/

lemma wordScore_foldl (name : String) (descWords : List String) :
    ∀ (ws : List String) (init : Nat),
      ws.foldl (fun acc w =>
        if descWords.any (fun word => jsIncludes word w) then
          (if jsIncludes name w then acc + 30 else acc) + 20
        else (if jsIncludes name w then acc + 30 else acc)) init =
      init + (ws.map (fun w =>
        (if jsIncludes name w then 30 else 0) +
          (if descWords.any (fun d => jsIncludes d w) then 20 else 0))).sum := by
  intro ws
  induction ws with
  | nil => intro init; simp
  | cons x xs ih =>
    intro init
    rw [List.foldl_cons, List.map_cons, List.sum_cons, ih]
    split_ifs <;> omega

lemma categoryScore_foldl (qL nL dL : String) :
    ∀ (cs : List Category) (init : Nat),
      cs.foldl (fun acc c =>
        if (c.keywords.filter (fun keyword =>
            jsIncludes qL keyword || jsIncludes nL keyword ||
              jsIncludes dL keyword)).length > 0 then
          acc + (c.keywords.filter (fun keyword =>
            jsIncludes qL keyword || jsIncludes nL keyword ||
              jsIncludes dL keyword)).length * 10 * c.weight
        else acc) init =
      init + (cs.map (fun c =>
        if (c.keywords.filter (fun k =>
            jsIncludes qL k || jsIncludes nL k || jsIncludes dL k)).length > 0 then
          (c.keywords.filter (fun k =>
            jsIncludes qL k || jsIncludes nL k || jsIncludes dL k)).length * 10 * c.weight
        else 0)).sum := by
  intro cs
  induction cs with
  | nil => intro init; simp
  | cons x xs ih =>
    intro init
    rw [List.foldl_cons, List.map_cons, List.sum_cons, ih]
    split_ifs <;> omega

lemma functionalityScore_foldl (qL nL : String) :
    ∀ (fs : List (String × List String)) (init : Nat),
      fs.foldl (fun acc fp =>
        if jsIncludes qL fp.1 then (if fp.2.contains nL then acc + 40 else acc) else acc)
        init =
      init + (fs.map (fun fp =>
        if jsIncludes qL fp.1 && fp.2.contains nL then 40 else 0)).sum := by
  intro fs
  induction fs with
  | nil => intro init; simp
  | cons x xs ih =>
    intro init
    rw [List.foldl_cons, List.map_cons, List.sum_cons, ih]
    cases h1 : jsIncludes qL x.1 with
    | true =>
      cases h2 : x.2.contains nL with
      | true =>
        rw [if_pos rfl, if_pos rfl, if_pos (by decide)]
        omega
      | false =>
        rw [if_pos rfl, if_neg (by decide), if_neg (by decide)]
        omega
    | false =>
      rw [if_neg (by decide), if_neg (by simp)]
      omega

/-- C7: the implemented scoring function agrees with the reference
additive formula of the specification on every (query, record) pair; both
are pure Lean functions, so identical inputs always produce identical
scores. -/
theorem calculateSemanticScore_eq_spec :
    ∀ (query : String) (packageInfo : PackageInfo),
      calculateSemanticScore query packageInfo = semanticScoreSpec query packageInfo := by
  intro query p
  unfold calculateSemanticScore semanticScoreSpec
  dsimp only
  rw [wordScore_foldl, categoryScore_foldl, functionalityScore_foldl]
  split_ifs <;> omega

/-- `RustDiscoveryEngine.searchAffordances`: delegates to the engine's own
`discoverPackages` (oracle `discover`) with the query as search term; the
Go and Java engines repeat the same delegation verbatim. -/
def rustSearchAffordances (discover : DiscoverPackagesInput → DiscoveryResult)
    (input : SearchAffordancesInput) : DiscoveryResult :=
  discover
    { language := input.language, searchTerm := some input.query,
      includeDevDependencies := true, maxResults := input.maxResults }

/-- C8 fails as stated: the Python engine's searchAffordances does not run
the discover-all/annotate/rank pipeline — with no installed packages and
query `json` it returns the stdlib match `json`, while the claimed
pipeline (which discovers with an empty search term, so stdlib matches
never enter the candidate set) returns nothing. -/
theorem pythonSearchAffordances_not_pipeline :
    pythonSearchAffordances []
        { query := "json", language := "python", category := "all", maxResults := 10 } ≠
      searchAffordancesSpec (pythonDiscoverPackages [])
        { query := "json", language := "python", category := "all", maxResults := 10 } := by
  decide

/-- C8 amended: only the JavaScript engine implements the
discover-all-with-empty-term / annotate / rank pipeline of §4.8 (its
searchAffordances coincides with the spec pipeline for every discovery
oracle and input); the Python engine — and the Rust engine, whose shape
Go and Java repeat — instead delegates to discoverPackages with the query
as the search term, performing no annotation or ranking. -/
theorem searchAffordances_shapes :
    (∀ (discover : DiscoverPackagesInput → DiscoveryResult) (input : SearchAffordancesInput),
      jsSearchAffordances discover input = searchAffordancesSpec discover input) ∧
    (∀ (installedPackages : List PackageInfo) (input : SearchAffordancesInput),
      pythonSearchAffordances installedPackages input =
        pythonDiscoverPackages installedPackages
          { language := input.language, searchTerm := some input.query,
            includeDevDependencies := true, maxResults := input.maxResults }) ∧
    (∀ (discover : DiscoverPackagesInput → DiscoveryResult) (input : SearchAffordancesInput),
      rustSearchAffordances discover input =
        discover
          { language := input.language, searchTerm := some input.query,
            includeDevDependencies := true, maxResults := input.maxResults }) :=
  ⟨fun _ _ => rfl, fun _ _ => rfl, fun _ _ => rfl⟩
